import Mathlib

/-!
Shallow embedding of the Music-Transcriber capture/streaming pipeline.

Source files embedded here:
* `src/src/components/Controls/RecordButton.tsx` — the session controller:
  WebSocket lifecycle (`startStreaming`, `stopAudio`), the socket event
  handlers (`onopen`, `onmessage`, `onclose`), the worklet port handler
  (the outbound `sendFrame` path) and the inbound event dispatcher
  (`handleServerEvent`).
* `src/public/audioprocessor.js` — the `AudioProcessor` worklet
  (`process`), which copies channel 0 of the current input block into a
  fresh `Float32Array` and posts it to the main thread.

Numbers carried by wire events and audio samples are modelled as `Rat`
(their numeric value never matters to the properties below, only their
presence and propagation).  JavaScript references that may be `null` are
modelled as `Option`; observable effects (console output, socket sends)
are collected in a `List Out`.
-/

/-- Audio samples handed from the worklet to the main thread: one frame is
the sample list of a single rendering quantum. -/
abbrev Frame := List Rat

/-- Readiness states of the WebSocket (`readyState`).  `close()` moves the
socket out of `opened`; the CLOSING/CLOSED distinction is irrelevant to
every property below (both compare unequal to `WebSocket.OPEN`), so both
are collapsed into `closed`. -/
inductive SocketSt
  | connecting
  | opened
  | closed
deriving DecidableEq

/-- The raw fields of one parsed inbound JSON record, mirroring the
`NoteEvent` interface of `RecordButton.tsx`.  `type` is kept as the raw
string (the TypeScript cast is unchecked, so any string, or no field at
all, can reach `handleServerEvent`). -/
structure RawRecord where
  type : Option String
  note : Option String
  midi : Option Int
  event : Option String
  value : Option Rat
  duration : Option Rat
  start_time : Option Rat
deriving DecidableEq

/-- One inbound wire message: either text that `JSON.parse` rejects, or a
successfully parsed record. -/
inductive Payload
  | malformed
  | record (r : RawRecord)
deriving DecidableEq

/-- Observable effects of the component: console output and socket sends. -/
inductive Out
  | logConnected
  | audioSetupFailed
  | jsonParseError
  | noteOn (note : String) (start_time : Option Rat)
  | noteOff (note : Option String) (start_time : Option Rat) (duration : Option Rat)
  | silenceReset
  | send (data : Frame)
deriving DecidableEq

/-- `handleServerEvent` of `RecordButton.tsx`: a `switch` on `data.type`
with cases for `note_on` (guarded by the JavaScript truthiness of
`data.note`, so an absent or empty string logs nothing), `note_off`,
`volume` (an empty case) and `silence_reset`.  There is no case for
`re_trigger` and no `default`, so that tag — like any unknown or absent
tag — falls out of the `switch` with no effect. -/
def handleServerEvent (data : RawRecord) : List Out :=
  if data.type = some "note_on" then
    match data.note with
    | some n => if n = "" then [] else [Out.noteOn n data.start_time]
    | none => []
  else if data.type = some "note_off" then
    [Out.noteOff data.note data.start_time data.duration]
  else if data.type = some "volume" then
    []
  else if data.type = some "silence_reset" then
    [Out.silenceReset]
  else
    []

/-- The socket `onmessage` handler: `JSON.parse` inside a `try`; a parse
failure is caught and reported via `console.error("JSON Parse Error", e)`;
a parsed record goes to `handleServerEvent`. -/
def onmessage (p : Payload) : List Out :=
  match p with
  | Payload.malformed => [Out.jsonParseError]
  | Payload.record r => handleServerEvent r

/-- The five tags the wire protocol recognizes. -/
def knownTag (t : String) : Bool :=
  t = "note_on" || t = "note_off" || t = "re_trigger" ||
    t = "volume" || t = "silence_reset"

/-- A record whose `type` field is absent. -/
def recNoType : RawRecord :=
  { type := none, note := none, midi := none, event := none,
    value := none, duration := none, start_time := none }

/-- A record with an unrecognized `type` tag. -/
def recMystery : RawRecord :=
  { recNoType with type := some "mystery" }

/-- A parsed `re_trigger` record. -/
def recReTrigger : RawRecord :=
  { recNoType with type := some "re_trigger" }

/-- A parsed `note_on` record whose `note` field is absent. -/
def recNoteOnNoNote : RawRecord :=
  { recNoType with type := some "note_on", start_time := some 1 }

/-- Faults a JavaScript statement could raise if reached unguarded:
invoking a method on a `null` reference, or the rejection of the device
acquisition / audio-setup promise chain in `startStreaming`'s `onopen`
handler. -/
inductive Fault
  | nullDeref
  | deviceAcquisition
deriving DecidableEq

/-- The component's mutable refs and UI state: `socketRef` (with the
socket's `readyState` when non-null), `audioContextRef` (non-null while a
rendering context is held), whether the worklet port handler has been
wired to the socket send, whether `getUserMedia` has resolved, and the
`isRecording` React state. -/
structure CState where
  socket : Option SocketSt
  audioContext : Option Unit
  workletWired : Bool
  micGranted : Bool
  isRecording : Bool
deriving DecidableEq

/-- The ref pattern `if (ref.current) { ref.current.close(); ref.current =
null; }` without its guard: closing through a `null` ref faults. -/
def refClose {α : Type} (r : Option α) : Except Fault (Option α) :=
  match r with
  | some _ => Except.ok none
  | none => Except.error Fault.nullDeref

/-- `stopAudio` of `RecordButton.tsx`, with its `null` guards: close and
null the audio context if present, close and null the socket if present,
then `setIsRecording(false)`. -/
def stopAudio (s : CState) : Except Fault CState := do
  let ac ← if s.audioContext.isSome then refClose s.audioContext else pure s.audioContext
  let sk ← if s.socket.isSome then refClose s.socket else pure s.socket
  Except.ok { s with audioContext := ac, socket := sk, isRecording := false }

/-- The state effect of `stopAudio`: both refs nulled (their resources
closed), recording flag cleared. -/
def stopAudioF (s : CState) : CState :=
  { s with audioContext := none, socket := none, isRecording := false }

/-- The `try` block of the `onopen` handler: `getUserMedia`, build the
`AudioContext`, install the worklet module and node, wire
`workletNode.port.onmessage` to the socket send.  When device acquisition
fails the promise chain rejects. -/
def audioSetup (granted : Bool) (s : CState) : Except Fault CState :=
  if granted then
    Except.ok { s with micGranted := true, audioContext := some (), workletWired := true }
  else
    Except.error Fault.deviceAcquisition

/-- The socket `onopen` handler: log, `setIsRecording(true)`, then the
`try`/`catch` around `audioSetup`.  The `catch` logs
`"Audio setup failed"`, calls `socketRef.current?.close()` and
`setIsRecording(false)`; the fault never escapes the handler. -/
def onopen (granted : Bool) (s : CState) : CState × List Out :=
  let s1 := { s with socket := some SocketSt.opened, isRecording := true }
  match audioSetup granted s1 with
  | Except.ok s2 => (s2, [Out.logConnected])
  | Except.error _ =>
      ({ s1 with socket := some SocketSt.closed, isRecording := false },
       [Out.logConnected, Out.audioSetupFailed])

/-- The worklet port handler wired in `onopen`: send the frame if
`socketRef.current?.readyState === WebSocket.OPEN`, otherwise do nothing —
no queue, no retry, no error. -/
def sendFrame (socket : Option SocketSt) (d : Frame) : List Out :=
  match socket with
  | some SocketSt.opened => [Out.send d]
  | _ => []

/-- Discrete events driving the component, per the socket/worklet
callbacks of `RecordButton.tsx`: a start request, the socket's `onopen`
firing (with the outcome of the audio setup it runs), an inbound socket
message, the socket's `onclose` firing, a local stop, and the worklet
posting one frame. -/
inductive Ev
  | startStreaming
  | socketOpened (granted : Bool)
  | inbound (p : Payload)
  | remoteClose
  | stop
  | frame (d : Frame)
deriving DecidableEq

/-- One event step of the component.  `startStreaming` creates the
WebSocket immediately (before any device access).  `onopen` fires only on
a connecting socket.  `onclose` fires on a socket that has already left
the OPEN state, then runs `setIsRecording(false); stopAudio()`.  A frame
posted by the worklet reaches the socket only if the port handler is
wired, and is sent only if the socket is OPEN. -/
def step (s : CState) (e : Ev) : CState × List Out :=
  match e with
  | Ev.startStreaming => ({ s with socket := some SocketSt.connecting }, [])
  | Ev.socketOpened granted =>
      match s.socket with
      | some SocketSt.connecting => onopen granted s
      | _ => (s, [])
  | Ev.inbound p => (s, onmessage p)
  | Ev.remoteClose =>
      match s.socket with
      | some _ =>
          (stopAudioF { s with socket := some SocketSt.closed, isRecording := false }, [])
      | none => (s, [])
  | Ev.stop => (stopAudioF s, [])
  | Ev.frame d =>
      (s, if s.workletWired then sendFrame s.socket d else [])

/-- Run a list of events, accumulating observable outputs. -/
def runOut (s : CState) : List Ev → CState × List Out
  | [] => (s, [])
  | e :: es =>
      let p := step s e
      let q := runOut p.1 es
      (q.1, p.2 ++ q.2)

/-- The component's initial state: both refs `null`, nothing wired, not
recording. -/
def initState : CState :=
  { socket := none, audioContext := none, workletWired := false,
    micGranted := false, isRecording := false }

/-- A `Float32Array` as seen by the worklet: an allocation address (to
track aliasing) and its sample contents. -/
structure Buf where
  addr : Nat
  data : List Rat
deriving DecidableEq

/-- State of the worklet side: the next fresh allocation address and the
frames posted to the port so far, in order. -/
structure ProcState where
  nextAddr : Nat
  emitted : List Buf
deriving DecidableEq

/-- `AudioProcessor.process` of `audioprocessor.js`: take `inputs[0]`; if
it exists and has at least one channel, allocate `new Float32Array` as a
copy of channel 0 and post it; always `return true`.  The `inputs`
argument is the per-input list of per-channel buffers handed in by the
rendering engine. -/
def process (st : ProcState) (inputs : List (List Buf)) : ProcState × Bool :=
  match inputs.head? with
  | some (ch0 :: _) =>
      let fresh : Buf := { addr := st.nextAddr, data := ch0.data }
      ({ nextAddr := st.nextAddr + 1, emitted := st.emitted ++ [fresh] }, true)
  | _ => (st, true)

/-- The JavaScript truthiness test `input && input.length > 0`. -/
def hasInput (inputs : List (List Buf)) : Bool :=
  match inputs.head? with
  | some (_ :: _) => true
  | _ => false

/-- Write through a buffer at address `a`: only buffers sharing that
address observe the mutation. -/
def mutate (a : Nat) (f : List Rat → List Rat) (b : Buf) : Buf :=
  if b.addr = a then { b with data := f b.data } else b

/-- Claim C1, counterexample: a parsed payload with the `type` field
absent, and one with an unrecognized tag, each produce no observable
output at all — in particular no `UnknownType` rejection signal is ever
emitted, contrary to the claim. -/
theorem c1_unknown_type_counterexample :
    onmessage (Payload.record recNoType) = [] ∧
    onmessage (Payload.record recMystery) = [] := by
  constructor <;> rfl

/-- Claim C1 (amended): for every inbound message whose payload parses but
whose `type` field is absent or not one of the five recognized tags, the
handler emits no output whatsoever — it never throws an unhandled fault
and never coerces the payload to a default variant, but it also emits no
rejection signal: the message is silently ignored. -/
theorem c1_unknown_type_amended (r : RawRecord)
    (h : ∀ t, r.type = some t → knownTag t = false) :
    onmessage (Payload.record r) = [] := by
  unfold onmessage handleServerEvent
  cases hr : r.type with
  | none => simp [hr]
  | some t =>
      have ht := h t hr
      simp only [knownTag, Bool.or_eq_false_iff, decide_eq_false_iff_not] at ht
      obtain ⟨⟨⟨⟨h1, h2⟩, h3⟩, h4⟩, h5⟩ := ht
      simp [hr, h1, h2, h4, h5]

/-- Witness for C1 (amended) at the concrete unrecognized-tag record. -/
theorem c1_unknown_type_amended_witness :
    onmessage (Payload.record recMystery) = [] :=
  c1_unknown_type_amended recMystery (fun t ht => by
    have h : "mystery" = t := by
      simpa [recMystery, recNoType] using ht
    subst h
    rfl)

/-- Claim C5: a non-parseable inbound message is reported on the error
channel (`console.error "JSON Parse Error"`), leaves the session state
untouched (the session is not closed and no fatal error propagates), and
every subsequent event is processed exactly as it would have been without
the malformed message. -/
theorem c5_malformed_isolated (s : CState) (evs : List Ev) :
    (step s (Ev.inbound Payload.malformed)).1 = s ∧
    (step s (Ev.inbound Payload.malformed)).2 = [Out.jsonParseError] ∧
    runOut s (Ev.inbound Payload.malformed :: evs) =
      ((runOut s evs).1, Out.jsonParseError :: (runOut s evs).2) := by
  refine ⟨rfl, rfl, ?_⟩
  simp [runOut, step, onmessage]

/-- Claim C10: a successfully parsed `re_trigger` event, and a `note_on`
event whose `note` field is absent, each produce no observable output —
these recognized variants are silently discarded by `handleServerEvent`. -/
theorem c10_silent_variants (r : RawRecord) :
    (r.type = some "re_trigger" → onmessage (Payload.record r) = []) ∧
    (r.type = some "note_on" → r.note = none → onmessage (Payload.record r) = []) := by
  constructor
  · intro h
    simp [onmessage, handleServerEvent, h]
  · intro h hn
    simp [onmessage, handleServerEvent, h, hn]

/-- Witness for C10 at a concrete `re_trigger` record and a concrete
`note_on` record without a `note` field. -/
theorem c10_silent_variants_witness :
    onmessage (Payload.record recReTrigger) = [] ∧
    onmessage (Payload.record recNoteOnNoNote) = [] :=
  ⟨(c10_silent_variants recReTrigger).1 rfl,
   (c10_silent_variants recNoteOnNoNote).2 rfl rfl⟩

/-- A state in which the socket has just been created by `startStreaming`
and is still connecting. -/
def connState : CState :=
  { initState with socket := some SocketSt.connecting }

/-- A fully streaming state: socket OPEN, rendering context held, worklet
wired, microphone granted, recording. -/
def streamingState : CState :=
  { socket := some SocketSt.opened, audioContext := some (),
    workletWired := true, micGranted := true, isRecording := true }

/-- Claim C2, counterexample: the very first step of a run — the start
request — already creates the WebSocket (the session enters its
connecting phase) while microphone access has not been granted and the
producer is not installed, contrary to the claimed
AcquiringDevice-before-Connecting ordering. -/
theorem c2_order_counterexample :
    (step initState Ev.startStreaming).1.socket = some SocketSt.connecting ∧
    (step initState Ev.startStreaming).1.micGranted = false ∧
    (step initState Ev.startStreaming).1.workletWired = false :=
  ⟨rfl, rfl, rfl⟩

/-- Claim C2 (amended): the connection is created on the start request,
before any device access; microphone access is granted and the hand-off
wiring to `sendFrame` is established only by the transition in which the
transport signals ready (`onopen` with a successful audio setup), on a
socket that already existed and was connecting — never before the
transport signals ready. -/
theorem c2_wiring_amended (s : CState) (e : Ev) :
    (s.workletWired = false → (step s e).1.workletWired = true →
      e = Ev.socketOpened true ∧ s.socket = some SocketSt.connecting) ∧
    (s.micGranted = false → (step s e).1.micGranted = true →
      e = Ev.socketOpened true ∧ s.socket = some SocketSt.connecting) := by
  cases e with
  | startStreaming =>
      refine ⟨?_, ?_⟩ <;> intro h1 h2 <;> simp [step, h1] at h2
  | socketOpened granted =>
      cases hs : s.socket with
      | none => refine ⟨?_, ?_⟩ <;> intro h1 h2 <;> simp [step, hs, h1] at h2
      | some st =>
          cases st with
          | connecting =>
              cases granted with
              | true => exact ⟨fun _ _ => ⟨rfl, rfl⟩, fun _ _ => ⟨rfl, rfl⟩⟩
              | false =>
                  refine ⟨?_, ?_⟩ <;> intro h1 h2 <;>
                    simp [step, hs, onopen, audioSetup, h1] at h2
          | opened =>
              refine ⟨?_, ?_⟩ <;> intro h1 h2 <;> simp [step, hs, h1] at h2
          | closed =>
              refine ⟨?_, ?_⟩ <;> intro h1 h2 <;> simp [step, hs, h1] at h2
  | inbound p =>
      refine ⟨?_, ?_⟩ <;> intro h1 h2 <;> simp [step, h1] at h2
  | remoteClose =>
      cases hs : s.socket with
      | none => refine ⟨?_, ?_⟩ <;> intro h1 h2 <;> simp [step, hs, h1] at h2
      | some st =>
          refine ⟨?_, ?_⟩ <;> intro h1 h2 <;>
            simp [step, hs, stopAudioF, h1] at h2
  | stop =>
      refine ⟨?_, ?_⟩ <;> intro h1 h2 <;> simp [step, stopAudioF, h1] at h2
  | frame d =>
      refine ⟨?_, ?_⟩ <;> intro h1 h2 <;> simp [step, h1] at h2

/-- Witness for C2 (amended): on the concrete connecting state, the
ready transition does establish the wiring, and the conclusion names that
very transition. -/
theorem c2_wiring_amended_witness :
    Ev.socketOpened true = Ev.socketOpened true ∧
    connState.socket = some SocketSt.connecting :=
  (c2_wiring_amended connState (Ev.socketOpened true)).1 rfl rfl

/-- Claim C3: a frame posted by the worklet never changes the component
state (nothing is queued, no error is raised), and the port handler
transmits the frame as a single message exactly when the socket's
`readyState` is OPEN — otherwise the frame is dropped with no output. -/
theorem c3_send_frame (s : CState) (d : Frame) :
    (step s (Ev.frame d)).1 = s ∧
    sendFrame s.socket d =
      (if s.socket = some SocketSt.opened then [Out.send d] else []) := by
  refine ⟨rfl, ?_⟩
  cases hs : s.socket with
  | none => simp [sendFrame]
  | some st => cases st <;> simp [sendFrame]

/-- Claim C6: when the connection closes remotely while the session is
streaming, the resulting state equals the one a local stop produces: the
controller is back to not-recording, the rendering context ref and the
socket ref are released — and a frame posted by the worklet either during
the `onclose` handler (socket already out of OPEN) or after teardown
produces no send. -/
theorem c6_remote_close_teardown (s : CState) (d : Frame)
    (h : s.socket = some SocketSt.opened) :
    (step s Ev.remoteClose).1 = (step s Ev.stop).1 ∧
    (step s Ev.remoteClose).1.isRecording = false ∧
    (step s Ev.remoteClose).1.audioContext = none ∧
    (step s Ev.remoteClose).1.socket = none ∧
    (step { s with socket := some SocketSt.closed, isRecording := false }
      (Ev.frame d)).2 = [] ∧
    (step (step s Ev.remoteClose).1 (Ev.frame d)).2 = [] := by
  refine ⟨?_, ?_, ?_, ?_, ?_, ?_⟩ <;>
    simp [step, h, stopAudioF, sendFrame]

/-- The state midway through the remote-close handler: the socket has left
the OPEN state and recording is cleared, but `stopAudio` has not yet run. -/
def midTeardownState : CState :=
  { streamingState with socket := some SocketSt.closed, isRecording := false }

/-- Witness for C6 at a concrete streaming state and a one-sample frame. -/
theorem c6_remote_close_teardown_witness :
    (step streamingState Ev.remoteClose).1 = (step streamingState Ev.stop).1 ∧
    (step streamingState Ev.remoteClose).1.isRecording = false ∧
    (step streamingState Ev.remoteClose).1.audioContext = none ∧
    (step streamingState Ev.remoteClose).1.socket = none ∧
    (step midTeardownState (Ev.frame [1])).2 = [] ∧
    (step (step streamingState Ev.remoteClose).1 (Ev.frame [1])).2 = [] :=
  c6_remote_close_teardown streamingState [1] rfl

/-- Claim C7: `stopAudio` (the local `close()`) never faults from any
state thanks to its `null` guards, and it is idempotent — a second call
returns the same released end state (both refs `null`, not recording)
without raising. -/
theorem c7_close_idempotent (s : CState) :
    stopAudio s = Except.ok (stopAudioF s) ∧
    stopAudio (stopAudioF s) = Except.ok (stopAudioF s) := by
  constructor
  · cases s with
    | mk sk ac w m r => cases ac <;> cases sk <;> rfl
  · cases s
    rfl

/-- Claim C9: when device acquisition fails after the socket opened, the
`catch` block leaves the controller not recording (back to idle), closes
the connection opened for this session, and reports the failure on the
console error channel; the fault is caught, never fatal. -/
theorem c9_device_failure_recovery (s : CState)
    (h : s.socket = some SocketSt.connecting) :
    (step s (Ev.socketOpened false)).1.isRecording = false ∧
    (step s (Ev.socketOpened false)).1.socket = some SocketSt.closed ∧
    (step s (Ev.socketOpened false)).2 =
      [Out.logConnected, Out.audioSetupFailed] := by
  refine ⟨?_, ?_, ?_⟩ <;> simp [step, h, onopen, audioSetup]

/-- Witness for C9 at the concrete connecting state. -/
theorem c9_device_failure_recovery_witness :
    (step connState (Ev.socketOpened false)).1.isRecording = false ∧
    (step connState (Ev.socketOpened false)).1.socket = some SocketSt.closed ∧
    (step connState (Ev.socketOpened false)).2 =
      [Out.logConnected, Out.audioSetupFailed] :=
  c9_device_failure_recovery connState rfl

/-- Claim C8: `process` always returns `true` (the keep-alive signal) —
it never self-terminates — and when no input is present (the JavaScript
guard `input && input.length > 0` fails) it emits nothing and changes
nothing while still returning `true`. -/
theorem c8_keep_alive (st : ProcState) (inputs : List (List Buf)) :
    (process st inputs).2 = true ∧
    (hasInput inputs = false → (process st inputs).1 = st) := by
  cases inputs with
  | nil => exact ⟨rfl, fun _ => rfl⟩
  | cons i rest =>
      cases i with
      | nil => exact ⟨rfl, fun _ => rfl⟩
      | cons b bs => exact ⟨rfl, fun h => by simp [hasInput] at h⟩

/-- The engine's internal buffer for one quantum (allocated before the
processor's next fresh address). -/
def bufEngine : Buf :=
  { addr := 0, data := [1, 0] }

/-- The processor state after the engine's buffers were allocated:
address 0 is taken, nothing emitted yet. -/
def procInit : ProcState :=
  { nextAddr := 1, emitted := [] }

/-- Witness for C8: with no input connected, `process` keeps the
processor alive and emits nothing. -/
theorem c8_keep_alive_witness :
    (process procInit []).2 = true ∧ (process procInit []).1 = procInit :=
  ⟨(c8_keep_alive procInit []).1, (c8_keep_alive procInit []).2 rfl⟩

/-- Claim C4: with input present, `process` emits exactly one new frame
whose contents are a copy of channel 0 of the input block (same samples,
hence the exact quantum length), allocated at a fresh address: it aliases
neither the engine's buffer nor any previously emitted frame, so a write
through the new frame leaves every previously emitted frame unchanged.
The final conjunct re-establishes the freshness invariant, so the
`hinv` hypothesis holds inductively along any run that starts with no
emitted frames. -/
theorem c4_fresh_copy (st : ProcState) (inputs : List (List Buf))
    (input : List Buf) (ch0 : Buf)
    (h1 : inputs.head? = some input) (h2 : input.head? = some ch0)
    (hinv : ∀ b ∈ st.emitted, b.addr < st.nextAddr)
    (heng : ch0.addr < st.nextAddr) :
    ∃ fr : Buf,
      (process st inputs).1.emitted = st.emitted ++ [fr] ∧
      fr.data = ch0.data ∧
      fr.data.length = ch0.data.length ∧
      fr.addr ≠ ch0.addr ∧
      (∀ b ∈ st.emitted, fr.addr ≠ b.addr) ∧
      (∀ b ∈ st.emitted, ∀ f, mutate fr.addr f b = b) ∧
      (∀ b ∈ (process st inputs).1.emitted,
        b.addr < (process st inputs).1.nextAddr) := by
  cases inputs with
  | nil => exact absurd h1 (by simp)
  | cons i rest =>
      have hi : i = input := by simpa using h1
      subst hi
      cases i with
      | nil => exact absurd h2 (by simp)
      | cons c tl =>
          have hc : c = ch0 := by simpa using h2
          subst hc
          refine ⟨{ addr := st.nextAddr, data := c.data }, rfl, rfl, rfl,
            (Nat.ne_of_lt heng).symm, ?_, ?_, ?_⟩
          · intro b hb
            exact (Nat.ne_of_lt (hinv b hb)).symm
          · intro b hb f
            simp only [mutate]
            rw [if_neg (Nat.ne_of_lt (hinv b hb))]
          · intro b hb
            simp only [process, List.head?, List.mem_append, List.mem_singleton] at hb ⊢
            rcases hb with hb | hb
            · exact Nat.lt_succ_of_lt (hinv b hb)
            · rw [hb]
              exact Nat.lt_succ_self _

/-- Witness for C4 at a concrete engine buffer and processor state. -/
theorem c4_fresh_copy_witness :
    ∃ fr : Buf,
      (process procInit [[bufEngine]]).1.emitted = procInit.emitted ++ [fr] ∧
      fr.data = bufEngine.data ∧
      fr.data.length = bufEngine.data.length ∧
      fr.addr ≠ bufEngine.addr ∧
      (∀ b ∈ procInit.emitted, fr.addr ≠ b.addr) ∧
      (∀ b ∈ procInit.emitted, ∀ f, mutate fr.addr f b = b) ∧
      (∀ b ∈ (process procInit [[bufEngine]]).1.emitted,
        b.addr < (process procInit [[bufEngine]]).1.nextAddr) :=
  c4_fresh_copy procInit [[bufEngine]] [bufEngine] bufEngine rfl rfl
    (by simp [procInit]) (by decide)
